import Mathlib

/-!
Verification of the coda-mcp server core (`src/server.ts`).

The embedding models the MCP tool handlers of `src/server.ts` as pure Lean
functions.  Effects of the upstream Coda API client are abstracted as
explicit arguments: a fetch of page content is an `Except String (Option String)`
(a thrown transport error, or a resolved value that may be `undefined`),
and calls such as `createPage`/`updateRow` are functions returning
`Except String String`.  A tool handler's result is a `ToolRes`: either a
success payload text or an error-flagged text, mirroring the
`CallToolResult` values built in `server.ts`.
-/

/-- Result of a tool handler: the single text content item, flagged as
success or as error (`isError: true`), as built throughout `src/server.ts`. -/
inductive ToolRes where
  | success (text : String)
  | error (text : String)
deriving DecidableEq

/-- Handler of `coda_get_page_content` (`src/server.ts` lines 231–243):
awaits `getPageContent`, throws `"Unknown error has occurred"` when the
resolved content is `undefined` (`content === undefined`), returns the
content otherwise; any thrown error is caught and rendered as
`"Failed to get page content : <message>"`. -/
def codaGetPageContent (fetch : Except String (Option String)) : ToolRes :=
  match fetch with
  | .error e => .error ("Failed to get page content : " ++ e)
  | .ok none => .error ("Failed to get page content : " ++ "Unknown error has occurred")
  | .ok (some content) => .success content

/-- Splitting on the regex `/\r?\n/` from `coda_peek_page`
(`src/server.ts` line 266): a line break is either `"\r\n"` or a bare
`"\n"`; a carriage return not followed by a line feed is ordinary text.
`acc` holds the characters of the current line in reverse. -/
def splitLinesAux : List Char → List Char → List String
  | [], acc => [String.mk acc.reverse]
  | '\r' :: '\n' :: rest, acc => String.mk acc.reverse :: splitLinesAux rest []
  | '\n' :: rest, acc => String.mk acc.reverse :: splitLinesAux rest []
  | c :: rest, acc => splitLinesAux rest (c :: acc)

/-- `content.split(/\r?\n/)` from `src/server.ts` line 266. -/
def splitLines (s : String) : List String :=
  splitLinesAux s.data []

/-- `lines.join("\n")` from `src/server.ts` line 266 (JavaScript
`Array.prototype.join`: empty list gives `""`, singleton gives the element). -/
def joinLines : List String → String
  | [] => ""
  | [l] => l
  | l :: l₂ :: rest => l ++ "\n" ++ joinLines (l₂ :: rest)

/-- `content.split(/\r?\n/).slice(0, numLines).join("\n")`
(`src/server.ts` line 266). -/
def peekLines (numLines : Nat) (content : String) : String :=
  joinLines ((splitLines content).take numLines)

/-- Handler of `coda_peek_page` (`src/server.ts` lines 258–275): awaits
`getPageContent`, throws `"Unknown error has occurred"` when the content is
falsy (`!content`, i.e. `undefined` or the empty string), otherwise returns
the first `numLines` lines rejoined with `"\n"`; any thrown error is caught
and rendered as `"Failed to peek page : <message>"`. -/
def codaPeekPage (fetch : Except String (Option String)) (numLines : Nat) : ToolRes :=
  match fetch with
  | .error e => .error ("Failed to peek page : " ++ e)
  | .ok none => .error ("Failed to peek page : " ++ "Unknown error has occurred")
  | .ok (some content) =>
      if content = "" then .error ("Failed to peek page : " ++ "Unknown error has occurred")
      else .success (peekLines numLines content)

/-- Reference normalisation of line terminators: every `"\r\n"` becomes
`"\n"`, all other characters are kept verbatim.  Stated over the character
list; used to express that peeking neither loses nor duplicates characters
at a line boundary. -/
def normalizeNewlines : List Char → List Char
  | [] => []
  | '\r' :: '\n' :: rest => '\n' :: normalizeNewlines rest
  | '\n' :: rest => '\n' :: normalizeNewlines rest
  | c :: rest => c :: normalizeNewlines rest

/-- Handler of `coda_duplicate_page` (`src/server.ts` lines 350–366):
awaits `getPageContent`, then calls `createPage` with the fetched content
(no `undefined` check in between).  The first component records the content
the `createPage` call was attempted with (`none` when `createPage` was never
reached); the second is the tool result, with errors rendered as
`"Failed to duplicate page : <message>"`. -/
def codaDuplicatePage (fetch : Except String (Option String))
    (create : Option String → Except String String) :
    Option (Option String) × ToolRes :=
  match fetch with
  | .error e => (none, .error ("Failed to duplicate page : " ++ e))
  | .ok pageContent =>
      match create pageContent with
      | .error e => (some pageContent, .error ("Failed to duplicate page : " ++ e))
      | .ok data => (some pageContent, .success data)

/-- Cursor/limit resolution of `coda_list_pages` (`src/server.ts` lines
147–151): `listLimit = nextPageToken ? undefined : limit` (JavaScript
truthiness, so the empty-string token counts as absent here) and
`pageToken = nextPageToken ?? undefined` (nullish coalescing, so the
empty-string token is still forwarded).  Returns the effective
`(limit, pageToken)` query sent upstream. -/
def resolveListParams (limit : Option Nat) (nextPageToken : Option String) :
    Option Nat × Option String :=
  let listLimit := match nextPageToken with
    | none => limit
    | some tok => if tok = "" then limit else none
  (listLimit, nextPageToken)

/-- One item of a `coda_bulk_update_rows` request (`src/server.ts` lines
958–961): a row id and the column/value pairs to write. -/
structure RowUpdate where
  rowIdOrName : String
  values : List (String × String)
deriving DecidableEq

/-- One entry of the `results` array built by `coda_bulk_update_rows`
(`src/server.ts` lines 980–991): the row id together with either the
upstream response data (`success: true`) or the caught error message
(`success: false`). -/
structure BatchOutcome where
  rowId : String
  success : Bool
  data : Option String
  error : Option String
deriving DecidableEq

/-- The outcome recorded for a single update: the inner `try`/`catch` of the
loop body of `coda_bulk_update_rows` (`src/server.ts` lines 968–992).
`apply` abstracts the `updateRow` call for this row. -/
def itemOutcome (apply : RowUpdate → Except String String) (u : RowUpdate) : BatchOutcome :=
  match apply u with
  | .ok data => { rowId := u.rowIdOrName, success := true, data := some data, error := none }
  | .error e => { rowId := u.rowIdOrName, success := false, data := none, error := some e }

/-- The `for (const update of updates)` loop of `coda_bulk_update_rows`
(`src/server.ts` lines 967–993), pushing one outcome per item in input
order. -/
def runUpdates (apply : RowUpdate → Except String String) : List RowUpdate → List BatchOutcome
  | [] => []
  | u :: rest => itemOutcome apply u :: runUpdates apply rest

/-- The aggregate payload serialized by `coda_bulk_update_rows`
(`src/server.ts` lines 998–1003). -/
structure BatchReport where
  results : List BatchOutcome
  totalUpdates : Nat
  successful : Nat
  failed : Nat
deriving DecidableEq

/-- Handler of `coda_bulk_update_rows` (`src/server.ts` lines 963–1009):
runs the per-item loop, then reports `totalUpdates = updates.length`,
`successful = results.filter(r => r.success).length` and
`failed = results.filter(r => !r.success).length`. -/
def codaBulkUpdateRows (apply : RowUpdate → Except String String)
    (updates : List RowUpdate) : BatchReport :=
  let results := runUpdates apply updates
  { results := results
    totalUpdates := updates.length
    successful := (results.filter (fun r => r.success)).length
    failed := (results.filter (fun r => !r.success)).length }

/-!
Spec-modelled part.  The Export-Poll Resolver (`getPageContent` in
`src/client/helpers`) is not included under `src/`; only its callers in
`src/server.ts` are.  It is modelled here from spec §4.1 and §6.
-/

/-- Status of an export job as reported by `getExportStatus` (spec §3, §6). -/
inductive JobStatus where
  | pending
  | complete
  | failed
deriving DecidableEq

/-- One observation of the export job: its status, the optional download
reference, and the optional upstream error reason (spec §3 `ExportJob`,
§6 `getExportStatus`). -/
structure JobView where
  status : JobStatus
  downloadRef : Option Nat
  error : Option String
deriving DecidableEq

/-- The failure taxonomy of the resolver (spec §7). -/
inductive RetrievalError where
  | timeout
  | upstream (reason : String)
  | malformed
  | transport (msg : String)
deriving DecidableEq

/-- Modelled from the spec: `getPageContent` — the Export-Poll Resolver of
`src/client/helpers`, which is not included under `src/` (only its callers
in `src/server.ts` are).  Spec §4.1: poll the job status until Complete or
Failed or until the wait budget elapses (TimeoutError); on Complete fetch
the content via the download reference and return it (the empty string is a
valid success); on Failed fail with UpstreamExportError carrying the
reported reason; a malformed terminal job (Complete without a usable
download reference) must fail rather than return an ambiguous empty
success; transport failures propagate.  `poll step` is the job view
observed at the step-th poll; `budget` is the remaining number of polls. -/
def resolveContentSpec (poll : Nat → Except String JobView)
    (fetch : Nat → Except String String) : Nat → Nat → Except RetrievalError String
  | 0, _ => .error .timeout
  | budget + 1, step =>
    match poll step with
    | .error m => .error (.transport m)
    | .ok v =>
      match v.status with
      | .pending => resolveContentSpec poll fetch budget (step + 1)
      | .failed => .error (.upstream (v.error.getD "export failed"))
      | .complete =>
        match v.downloadRef with
        | none => .error .malformed
        | some r =>
          match fetch r with
          | .error m => .error (.transport m)
          | .ok text => .ok text

/-!
Helper lemmas.
-/

theorem splitLinesAux_ne_nil (s acc : List Char) : splitLinesAux s acc ≠ [] := by
  induction s, acc using splitLinesAux.induct with
  | case1 acc => simp [splitLinesAux]
  | case2 rest acc ih => simp [splitLinesAux]
  | case3 rest acc ih => simp [splitLinesAux]
  | case4 c rest acc h₁ h₂ ih => rw [splitLinesAux.eq_4 _ _ _ h₁ h₂]; exact ih

theorem joinLines_cons (l : String) (ls : List String) (h : ls ≠ []) :
    joinLines (l :: ls) = l ++ "\n" ++ joinLines ls := by
  match ls with
  | [] => exact absurd rfl h
  | l₂ :: rest => rfl

theorem mk_append (a b : List Char) : String.mk a ++ String.mk b = String.mk (a ++ b) := rfl

theorem nl_eq : "\n" = String.mk ['\n'] := rfl

/-- Joining the split lines back with `"\n"` reproduces the content with
every `"\r\n"` normalised to `"\n"`: the split loses and duplicates no
characters at a line boundary. -/
theorem joinLines_splitLinesAux (s acc : List Char) :
    joinLines (splitLinesAux s acc) = String.mk (acc.reverse ++ normalizeNewlines s) := by
  induction s, acc using splitLinesAux.induct with
  | case1 acc => simp [splitLinesAux, normalizeNewlines, joinLines]
  | case2 rest acc ih =>
      rw [show splitLinesAux ('\r' :: '\n' :: rest) acc
            = String.mk acc.reverse :: splitLinesAux rest [] from rfl,
        joinLines_cons _ _ (splitLinesAux_ne_nil _ _), ih, nl_eq, mk_append, mk_append]
      simp [normalizeNewlines]
  | case3 rest acc ih =>
      rw [show splitLinesAux ('\n' :: rest) acc
            = String.mk acc.reverse :: splitLinesAux rest [] from rfl,
        joinLines_cons _ _ (splitLinesAux_ne_nil _ _), ih, nl_eq, mk_append, mk_append]
      simp [normalizeNewlines]
  | case4 c rest acc h₁ h₂ ih =>
      rw [splitLinesAux.eq_4 _ _ _ h₁ h₂, ih, normalizeNewlines.eq_4 _ _ h₁ h₂]
      simp

theorem joinLines_splitLines (s : String) :
    joinLines (splitLines s) = String.mk (normalizeNewlines s.data) := by
  simpa using joinLines_splitLinesAux s.data []

theorem runUpdates_eq_map (apply : RowUpdate → Except String String)
    (updates : List RowUpdate) :
    runUpdates apply updates = updates.map (itemOutcome apply) := by
  induction updates with
  | nil => rfl
  | cons u rest ih => simp [runUpdates, ih]

theorem length_filter_success_add (l : List BatchOutcome) :
    (l.filter (fun r => r.success)).length + (l.filter (fun r => !r.success)).length
      = l.length := by
  induction l with
  | nil => rfl
  | cons a l ih => by_cases h : a.success <;> simp [List.filter, h] <;> omega

/-!
Claim theorems.
-/

/-- C1 (counterexample): the claim fails at empty content.  The empty string
resolves successfully (`coda_get_page_content` returns it as a success), and
its first line is the empty string, so the claim predicts
`peekContent` returns `""`; but `coda_peek_page` checks `!content`, so it
reports "Unknown error has occurred" instead. -/
theorem c1_empty_content_cex :
    codaPeekPage (Except.ok (some "")) 1
      = ToolRes.error "Failed to peek page : Unknown error has occurred" ∧
    codaPeekPage (Except.ok (some "")) 1 ≠ ToolRes.success (peekLines 1 "") := by
  constructor
  · decide
  · decide

/-- C1 (amended): for every successfully resolved NONEMPTY content and every
positive `maxLines` `n`, `coda_peek_page` returns exactly the first `n`
lines of the content — splitting on bare or carriage-return-prefixed line
feeds — rejoined with the single uniform separator `"\n"`; and when `n` is
at least the total line count the result is the full content with every
`"\r\n"` normalised to `"\n"`, no character lost or duplicated at a
boundary.  (For empty content the handler reports an error instead.) -/
theorem c1_peek_first_lines (content : String) (n : Nat)
    (hne : content ≠ "") (_hn : 0 < n) :
    codaPeekPage (Except.ok (some content)) n
      = ToolRes.success (joinLines ((splitLines content).take n)) ∧
    ((splitLines content).length ≤ n →
      codaPeekPage (Except.ok (some content)) n
        = ToolRes.success (String.mk (normalizeNewlines content.data))) := by
  constructor
  · simp [codaPeekPage, hne, peekLines]
  · intro hle
    simp [codaPeekPage, hne, peekLines, List.take_of_length_le hle, joinLines_splitLines]

/-- C1 witness: a content mixing `"\r\n"` and `"\n"` line breaks. -/
theorem c1_peek_first_lines_witness :
    codaPeekPage (Except.ok (some "a\r\nb\nc")) 3
      = ToolRes.success (joinLines ((splitLines "a\r\nb\nc").take 3)) ∧
    ((splitLines "a\r\nb\nc").length ≤ 3 →
      codaPeekPage (Except.ok (some "a\r\nb\nc")) 3
        = ToolRes.success (String.mk (normalizeNewlines "a\r\nb\nc".data))) :=
  c1_peek_first_lines "a\r\nb\nc" 3 (by decide) (by decide)

/-- C2 (counterexample): empty-string content is a success for
`coda_get_page_content` but NOT for `coda_peek_page`: the peek handler's
truthiness check turns the empty-string success into the error
"Unknown error has occurred". -/
theorem c2_empty_success_cex :
    codaGetPageContent (Except.ok (some "")) = ToolRes.success "" ∧
    codaPeekPage (Except.ok (some "")) 30
      = ToolRes.error "Failed to peek page : Unknown error has occurred" ∧
    codaPeekPage (Except.ok (some "")) 30 ≠ ToolRes.success "" := by
  refine ⟨rfl, by decide, by decide⟩

/-- C2 (amended): when the export completes with empty-string content,
`coda_get_page_content` succeeds and returns the empty string — a valid,
distinct success — but `coda_peek_page`, whose guard is `!content` rather
than `content === undefined`, treats the empty string as a failure signal
and reports "Unknown error has occurred". -/
theorem c2_empty_content_behavior (n : Nat) :
    codaGetPageContent (Except.ok (some "")) = ToolRes.success "" ∧
    codaPeekPage (Except.ok (some "")) n
      = ToolRes.error ("Failed to peek page : " ++ "Unknown error has occurred") := by
  refine ⟨rfl, ?_⟩
  simp [codaPeekPage]

/-- C3 (counterexample): the claim fails at the present-but-empty cursor
token.  With `limit = 10` and `cursorToken = ""`, the claim requires the
effective limit to be unset; the code's truthiness test keeps the limit
(and nullish coalescing still forwards the empty cursor). -/
theorem c3_empty_token_cex :
    resolveListParams (some 10) (some "") = (some 10, some "") ∧
    resolveListParams (some 10) (some "") ≠ ((none : Option Nat), some "") := by
  constructor
  · decide
  · decide

/-- C3 (amended): a supplied NONEMPTY continuation cursor takes precedence:
the effective limit is unset and the effective cursor is the token,
regardless of the supplied limit; with no cursor the effective limit is the
supplied limit (possibly unset) and the effective cursor is unset. -/
theorem c3_cursor_precedence (limit : Option Nat) (tok : String) (htok : tok ≠ "") :
    resolveListParams limit (some tok) = (none, some tok) ∧
    resolveListParams limit none = (limit, none) := by
  constructor
  · simp [resolveListParams, htok]
  · rfl

/-- C3 witness: the spec's own example inputs. -/
theorem c3_cursor_precedence_witness :
    resolveListParams (some 10) (some "tok") = (none, some "tok") ∧
    resolveListParams (some 10) none = (some 10, none) :=
  c3_cursor_precedence (some 10) "tok" (by decide)

/-- C4: `coda_bulk_update_rows` applies the items strictly in input order
and each independently — the report's `results` is exactly the input list
mapped through the per-item outcome, so an error on one item is captured as
a `success: false` entry and never prevents the following items; in
particular on `[A(ok), B(fails), C(ok)]` the report is
`[A success, B failure, C success]` with counts 3/2/1: C is attempted
despite B's failure. -/
theorem c4_batch_isolation (apply : RowUpdate → Except String String)
    (updates : List RowUpdate) :
    (codaBulkUpdateRows apply updates).results = updates.map (itemOutcome apply) ∧
    codaBulkUpdateRows
        (fun u => if u.rowIdOrName = "B" then Except.error "boom"
                  else Except.ok ("updated " ++ u.rowIdOrName))
        [⟨"A", []⟩, ⟨"B", []⟩, ⟨"C", []⟩]
      = { results :=
            [⟨"A", true, some "updated A", none⟩,
             ⟨"B", false, none, some "boom"⟩,
             ⟨"C", true, some "updated C", none⟩],
          totalUpdates := 3, successful := 2, failed := 1 } := by
  constructor
  · simpa [codaBulkUpdateRows] using runUpdates_eq_map apply updates
  · decide

/-- C5: the report of `coda_bulk_update_rows` always satisfies
`len(results) = totalCount = successCount + failureCount`, with exactly one
outcome per input item; the empty input yields the all-zero report. -/
theorem c5_report_invariant (apply : RowUpdate → Except String String)
    (updates : List RowUpdate) :
    (codaBulkUpdateRows apply updates).results.length
      = (codaBulkUpdateRows apply updates).totalUpdates ∧
    (codaBulkUpdateRows apply updates).totalUpdates
      = (codaBulkUpdateRows apply updates).successful
          + (codaBulkUpdateRows apply updates).failed ∧
    (codaBulkUpdateRows apply updates).totalUpdates = updates.length ∧
    codaBulkUpdateRows apply []
      = { results := [], totalUpdates := 0, successful := 0, failed := 0 } := by
  refine ⟨?_, ?_, rfl, rfl⟩
  · simp [codaBulkUpdateRows, runUpdates_eq_map]
  · have h := length_filter_success_add (runUpdates apply updates)
    have hlen : (runUpdates apply updates).length = updates.length := by
      rw [runUpdates_eq_map]; simp
    simp only [codaBulkUpdateRows]
    omega

/-- C6: in `coda_duplicate_page`, when the read step (`getPageContent`)
throws, the `createPage` call is never attempted (the recorded create
attempt is `none`) and the surfaced error names the read failure. -/
theorem c6_duplicate_read_failure (e : String)
    (create : Option String → Except String String) :
    codaDuplicatePage (Except.error e) create
      = (none, ToolRes.error ("Failed to duplicate page : " ++ e)) := rfl

/-- C7: the content-retrieval operation fails — it never returns a success
payload — when the export job reports Failed (UpstreamExportError with the
reported reason) or when the completed job is malformed (no download
reference); and `coda_get_page_content` surfaces an absent/undefined
resolved value as the explicit error "Unknown error has occurred", never as
an ambiguous empty success. -/
theorem c7_resolve_failure_paths (poll : Nat → Except String JobView)
    (fetch : Nat → Except String String) (budget step : Nat) (v : JobView)
    (hpoll : poll step = Except.ok v) :
    (v.status = JobStatus.failed →
      resolveContentSpec poll fetch (budget + 1) step
        = Except.error (RetrievalError.upstream (v.error.getD "export failed"))) ∧
    (v.status = JobStatus.complete → v.downloadRef = none →
      resolveContentSpec poll fetch (budget + 1) step
        = Except.error RetrievalError.malformed) ∧
    codaGetPageContent (Except.ok none)
      = ToolRes.error ("Failed to get page content : " ++ "Unknown error has occurred") := by
  refine ⟨?_, ?_, rfl⟩
  · intro hst
    simp [resolveContentSpec, hpoll, hst]
  · intro hst hdr
    simp [resolveContentSpec, hpoll, hst, hdr]

/-- C7 witness: a job observed as Failed with reason "boom", and the
undefined resolved value at the tool level. -/
theorem c7_resolve_failure_paths_witness :
    resolveContentSpec (fun _ => Except.ok ⟨JobStatus.failed, none, some "boom"⟩)
        (fun _ => Except.ok "") 1 0
      = Except.error (RetrievalError.upstream "boom") ∧
    codaGetPageContent (Except.ok none)
      = ToolRes.error ("Failed to get page content : " ++ "Unknown error has occurred") := by
  have h := c7_resolve_failure_paths
    (fun _ => Except.ok ⟨JobStatus.failed, none, some "boom"⟩)
    (fun _ => Except.ok "") 0 0 ⟨JobStatus.failed, none, some "boom"⟩ rfl
  exact ⟨h.1 rfl, h.2.2⟩

/-- C8: every modelled operation's result is exactly one of a success
payload or a single error text prefixed with the operation's name followed
by the failure reason; a thrown internal failure is always caught and
reduced to that one descriptive message. -/
theorem c8_error_message_shape (fetch : Except String (Option String)) (n : Nat)
    (create : Option String → Except String String) (e : String) :
    codaGetPageContent (Except.error e)
      = ToolRes.error ("Failed to get page content : " ++ e) ∧
    codaPeekPage (Except.error e) n = ToolRes.error ("Failed to peek page : " ++ e) ∧
    (codaDuplicatePage (Except.error e) create).2
      = ToolRes.error ("Failed to duplicate page : " ++ e) ∧
    ((∃ t, codaGetPageContent fetch = ToolRes.success t) ∨
      (∃ r, codaGetPageContent fetch = ToolRes.error ("Failed to get page content : " ++ r))) ∧
    ((∃ t, codaPeekPage fetch n = ToolRes.success t) ∨
      (∃ r, codaPeekPage fetch n = ToolRes.error ("Failed to peek page : " ++ r))) ∧
    ((∃ t, (codaDuplicatePage fetch create).2 = ToolRes.success t) ∨
      (∃ r, (codaDuplicatePage fetch create).2
        = ToolRes.error ("Failed to duplicate page : " ++ r))) := by
  refine ⟨rfl, rfl, rfl, ?_, ?_, ?_⟩
  · match fetch with
    | .error e₂ => exact Or.inr ⟨e₂, rfl⟩
    | .ok none => exact Or.inr ⟨"Unknown error has occurred", rfl⟩
    | .ok (some c) => exact Or.inl ⟨c, rfl⟩
  · match fetch with
    | .error e₂ => exact Or.inr ⟨e₂, rfl⟩
    | .ok none => exact Or.inr ⟨"Unknown error has occurred", rfl⟩
    | .ok (some c) =>
        by_cases hc : c = ""
        · exact Or.inr ⟨"Unknown error has occurred", by simp [codaPeekPage, hc]⟩
        · exact Or.inl ⟨peekLines n c, by simp [codaPeekPage, hc]⟩
  · match fetch with
    | .error e₂ => exact Or.inr ⟨e₂, rfl⟩
    | .ok pc =>
        match hcr : create pc with
        | .error e₂ => exact Or.inr ⟨e₂, by simp [codaDuplicatePage, hcr]⟩
        | .ok d => exact Or.inl ⟨d, by simp [codaDuplicatePage, hcr]⟩

/-- C9: an empty-string `nextPageToken` is falsy for the limit decision but
not nullish for forwarding, so `coda_list_pages` sends BOTH the supplied
limit and the empty cursor upstream in the same call. -/
theorem c9_empty_cursor_token (limit : Option Nat) :
    resolveListParams limit (some "") = (limit, some "") := by
  simp [resolveListParams]

/-- C10: when `getPageContent` resolves to `undefined` without throwing,
`coda_duplicate_page` raises no error at that step: `createPage` is still
attempted with the undefined content and its response is reported as
success — unlike `coda_get_page_content`, which rejects an undefined
result with "Unknown error has occurred". -/
theorem c10_duplicate_undefined_content (create : Option String → Except String String)
    (d : String) (hcreate : create none = Except.ok d) :
    codaDuplicatePage (Except.ok none) create = (some none, ToolRes.success d) ∧
    codaGetPageContent (Except.ok none)
      = ToolRes.error ("Failed to get page content : " ++ "Unknown error has occurred") := by
  refine ⟨?_, rfl⟩
  simp [codaDuplicatePage, hcreate]

/-- C10 witness: a create call that succeeds on the undefined content. -/
theorem c10_duplicate_undefined_content_witness :
    codaDuplicatePage (Except.ok none) (fun _ => Except.ok "created")
      = (some none, ToolRes.success "created") ∧
    codaGetPageContent (Except.ok none)
      = ToolRes.error ("Failed to get page content : " ++ "Unknown error has occurred") :=
  c10_duplicate_undefined_content (fun _ => Except.ok "created") "created" rfl
